import Mathlib

/-!
Verification of the ADB-USB-WiFi CLI (Python sources: adb_utils.py,
adb_connectors.py, adb_automator.py, main_cli.py) against its
natural-language specification. The Python code is shallowly embedded:
string-manipulating helpers are modelled on `List Char` with structural
recursion so that every definition is executable and concrete instances
reduce by `decide` or `rfl`.
-/

/-! ## Python string primitives -/

/-- Characters Python's `str.strip()` removes by default. -/
def pySpaceChar (c : Char) : Bool :=
  c = ' ' || c = '\t' || c = '\n' || c = '\r' || c = '\x0b' || c = '\x0c'

/-- Drop leading Python whitespace from a character list. -/
def dropLeadingSpace : List Char → List Char
  | [] => []
  | c :: cs => if pySpaceChar c then dropLeadingSpace cs else c :: cs

/-- Model of Python `s.strip()`: remove leading and trailing whitespace. -/
def pyStrip (s : String) : String :=
  ⟨(dropLeadingSpace ((dropLeadingSpace s.data).reverse)).reverse⟩

/-- Model of Python `s.lower()` restricted to ASCII letters. -/
def pyLower (s : String) : String :=
  ⟨s.data.map Char.toLower⟩

/-- Auxiliary splitter: Python `s.split(sep)` for a one-character separator,
    accumulating the current field in reverse. -/
def splitCharAux (sep : Char) : List Char → List Char → List (List Char)
  | [], acc => [acc.reverse]
  | c :: cs, acc =>
    if c = sep then acc.reverse :: splitCharAux sep cs []
    else splitCharAux sep cs (c :: acc)

/-- Model of Python `s.split(sep)` for a one-character separator (keeps empty
    fields; the empty string yields one empty field). -/
def pySplit (sep : Char) (s : String) : List String :=
  (splitCharAux sep s.data []).map (fun cs => ⟨cs⟩)

/-- Model of Python `sep.join(items)`. -/
def pyJoin (sep : String) : List String → String
  | [] => ""
  | [x] => x
  | x :: xs => x ++ sep ++ pyJoin sep xs

/-! ## The Wi-Fi serial pattern (adb_utils.py line 8)

`WIFI_SERIAL_PATTERN = r'^\d{1,3}\.\d{1,3}\.\d{1,3}\.\d{1,3}:\d+$'`,
used via `re.match`. Since a digit class can match neither a dot nor a
colon, the regex accepts a string exactly when it splits on one colon
into an address of four 1-to-3-digit fields and a nonempty digit port;
Python's `$` additionally accepts one trailing newline. -/

/-- Whether every character of the string is an ASCII digit. -/
def allDigits (s : String) : Bool := s.data.all Char.isDigit

/-- One address field of the pattern: one to three digits. -/
def isOctetField (s : String) : Bool :=
  decide (1 ≤ s.length) && decide (s.length ≤ 3) && allDigits s

/-- Full-string match of the pattern body. -/
def wifiShape (s : String) : Bool :=
  match pySplit ':' s with
  | [ip, port] =>
    (match pySplit '.' ip with
     | [a, b, c, d] => isOctetField a && isOctetField b && isOctetField c && isOctetField d
     | _ => false)
    && decide (1 ≤ port.length) && allDigits port
  | _ => false

/-- Model of Python `re.match(WIFI_SERIAL_PATTERN, s)` being truthy: the body
    matches the whole string, or the whole string minus one trailing
    newline (Python `$` semantics). -/
def reMatchWifi (s : String) : Bool :=
  wifiShape s ||
    (match s.data.reverse with
     | c :: rest => c = '\n' && wifiShape ⟨rest.reverse⟩
     | [] => false)

/-! ## Command executor result shaping (adb_utils.py lines 24-33)

On a successful `subprocess.run` the Python helper executes
`return result.stdout if raw_output else result.stdout.strip(), result.stderr.strip()`:
the conditional expression governs only the first tuple component, so
stderr is stripped unconditionally. -/

/-- The pair `_run_adb_command` returns on subprocess success, as a function
    of the captured stdout, the captured stderr and the `raw_output` flag
    (adb_utils.py line 33). -/
def run_adb_return (stdout stderr : String) (raw_output : Bool) : String × String :=
  ((if raw_output then stdout else pyStrip stdout), pyStrip stderr)

/-! ## Device probe (adb_connectors.py)

`AdbUsbConnector.check_connection` and `AdbWifiConnector.check_connection`
share one algorithm, differing only in the track filter (negated vs plain
`re.match(WIFI_SERIAL_PATTERN, serial)`) and in the summary texts. The
shared body is modelled with a `wifi : Bool` parameter: `true` is the
Wi-Fi class, `false` the USB class. -/

/-- The three status buckets a probe accumulates. -/
structure Buckets where
  authorized : List String
  unauthorized : List String
  offline : List String
deriving Repr, DecidableEq

/-- The buckets before any listing line is processed. -/
def emptyBuckets : Buckets := ⟨[], [], []⟩

/-- One iteration of the listing loop (adb_connectors.py lines 23-41 and
    71-89): skip blank lines, split on a tab, require exactly two fields,
    keep only serials on the probed track, and bucket by status. -/
def addLine (wifi : Bool) (bk : Buckets) (line : String) : Buckets :=
  if pyStrip line = "" then bk
  else
    match pySplit '\t' line with
    | [p0, p1] =>
      if reMatchWifi (pyStrip p0) = wifi then
        if pyStrip p1 = "device" then
          { bk with authorized := bk.authorized ++ [pyStrip p0] }
        else if pyStrip p1 = "unauthorized" then
          { bk with unauthorized := bk.unauthorized ++ [pyStrip p0] }
        else if pyStrip p1 = "offline" then
          { bk with offline := bk.offline ++ [pyStrip p0] }
        else bk
      else bk
    | _ => bk

/-- The bucket contents a probe derives from the raw `adb devices` stdout:
    strip, split on newlines, drop the header line, fold the loop body. -/
def probeBuckets (wifi : Bool) (stdout : String) : Buckets :=
  ((pySplit '\n' (pyStrip stdout)).drop 1).foldl (addLine wifi) emptyBuckets

/-- All serials retained in any bucket. -/
def bucketMembers (bk : Buckets) : List String :=
  bk.authorized ++ bk.unauthorized ++ bk.offline

/-- The summary triple built from the buckets (adb_connectors.py lines
    43-50 for USB, 91-98 for Wi-Fi), with the exact message texts. -/
def summarize (wifi : Bool) (bk : Buckets) : Bool × String × List String :=
  if bk.authorized ≠ [] then
    (true,
     (if wifi then "ADB Wi-Fi connection successful. Device(s) connected and authorized: "
      else "ADB USB connection successful. Device(s) connected and authorized: ")
       ++ pyJoin ", " bk.authorized,
     bk.authorized)
  else if bk.unauthorized ≠ [] then
    (false,
     if wifi then
       "Wi-Fi Device(s) detected but 'unauthorized': " ++ pyJoin ", " bk.unauthorized
         ++ ". Check device for authorization prompt."
     else
       "Device(s) detected but 'unauthorized': " ++ pyJoin ", " bk.unauthorized
         ++ ". Please check your Android device and authorize the connection (allow USB debugging).",
     [])
  else if bk.offline ≠ [] then
    (false,
     if wifi then
       "Wi-Fi Device(s) detected but 'offline': " ++ pyJoin ", " bk.offline
         ++ ". Check device and network."
     else
       "Device(s) detected but 'offline': " ++ pyJoin ", " bk.offline
         ++ ". Please ensure your device is powered on and not in a special mode.",
     [])
  else
    (false,
     if wifi then "No authorized Wi-Fi Android devices found."
     else "No authorized USB Android devices found.",
     [])

/-- `check_connection` of either connector class, as a function of the
    executor's result for `adb devices` (adb_connectors.py lines 14-50 and
    62-98): a nonempty stderr short-circuits to failure before parsing. -/
def check_connection (wifi : Bool) (stdout stderr : String) : Bool × String × List String :=
  if stderr = "" then summarize wifi (probeBuckets wifi stdout)
  else (false, "Error running 'adb devices': " ++ stderr, [])

example : probeBuckets false "List of devices attached\nabc123\tdevice" =
    ⟨["abc123"], [], []⟩ := by decide
example : probeBuckets true "List of devices attached\nabc123\tdevice\n10.0.0.5:5555\tdevice" =
    ⟨["10.0.0.5:5555"], [], []⟩ := by decide
example : (check_connection false "List of devices attached\nabc123\tunauthorized" "").1 = false := by
  decide

/-! ## Synthetic input agent (adb_automator.py)

`_shell_input` builds `['shell', 'input', command_type, str(value1)]`
(plus an optional second value) and hands it to `_run_adb_command` with
the target serial, which prefixes `['adb', '-s', serial]`. -/

/-- The full command line `_shell_input` causes to be spawned
    (adb_automator.py lines 15-19 with adb_utils.py lines 18-21). -/
def shellInputCommand (serial command_type value1 : String) (value2 : Option String) : List String :=
  ["adb", "-s", serial, "shell", "input", command_type, value1]
    ++ (match value2 with | some v => [v] | none => [])

/-- Model of `text.replace(' ', '%s')` on the character list
    (adb_automator.py line 44). -/
def escapeSpaces : List Char → List Char
  | [] => []
  | c :: cs => if c = ' ' then '%' :: 's' :: escapeSpaces cs else c :: escapeSpaces cs

/-- The argument `input_text` transmits: the text with spaces escaped. -/
def input_text_arg (text : String) : String := ⟨escapeSpaces text.data⟩

/-- The command line `input_text` causes to be spawned
    (adb_automator.py lines 37-45). -/
def input_text_cmd (serial text : String) : List String :=
  shellInputCommand serial "text" (input_text_arg text) none

/-! ## Backup command construction (main_cli.py lines 361-363 and 479-481) -/

/-- The scope of a backup session. -/
inductive BackupScope where
  | allData
  | singleApplication (packageName : String)
deriving Repr, DecidableEq

/-- The argument vector handed to `subprocess.Popen`: for the whole-device
    path `['adb', '-s', serial, 'backup', '-all', '-f', path]`
    (main_cli.py lines 361-363), for the single-application path
    `['adb', '-s', serial, 'backup', '-f', path, '-apk', pkg]`
    (main_cli.py lines 479-481). -/
def backupCommand (scope : BackupScope) (serial backup_file_path : String) : List String :=
  match scope with
  | .allData => ["adb", "-s", serial, "backup", "-all", "-f", backup_file_path]
  | .singleApplication pkg => ["adb", "-s", serial, "backup", "-f", backup_file_path, "-apk", pkg]

/-! ## Automation script (main_cli.py lines 372-391 and 490-509)

Inside `if auto_confirm:` both backup methods run the same sequence of
sleeps, taps, one text injection and possibly one key press. The
sequence is modelled as a list of events. -/

/-- One observable automation event. -/
inductive AutoStep where
  | sleep (units : Nat)
  | tap (x y : Int)
  | inputText (text : String)
  | pressKey (code : Nat)
deriving Repr, DecidableEq

/-- The automation-relevant session fields as the backup methods hold them
    just before spawning the subprocess. -/
structure AutomationFields where
  tap_coords : Option (Int × Int)
  password_coords : Option (Int × Int)
  confirm_pass_coords : Option (Int × Int)
  password_to_use : String
deriving Repr, DecidableEq

/-- The event sequence the `if auto_confirm:` block issues (main_cli.py
    lines 372-391, identical at lines 490-509): sleep 5; if a primary tap
    coordinate is set, tap it and sleep 2; if the password is nonempty,
    optionally tap the password field and sleep 1, inject the password,
    sleep 1, tap the confirm coordinate if set and otherwise press key 66,
    then sleep 2. -/
def automationSteps (p : AutomationFields) : List AutoStep :=
  [.sleep 5]
  ++ (match p.tap_coords with
      | some (x, y) => [.tap x y, .sleep 2]
      | none => [])
  ++ (if p.password_to_use ≠ "" then
        (match p.password_coords with
         | some (x, y) => [.tap x y, .sleep 1]
         | none => [])
        ++ [.inputText p.password_to_use, .sleep 1]
        ++ (match p.confirm_pass_coords with
            | some (x, y) => [.tap x y]
            | none => [.pressKey 66])
        ++ [.sleep 2]
      else [])

/-- The automation sequence as the specification describes it, given the
    primary confirm coordinate and the optional password steps. Stated
    from the spec sentence, to be compared with `automationSteps`. -/
def automationStepsSpec (tc : Int × Int) (pc cc : Option (Int × Int)) (pw : String) :
    List AutoStep :=
  [.sleep 5, .tap tc.1 tc.2, .sleep 2]
  ++ (if pw ≠ "" then
        (match pc with | some q => [.tap q.1 q.2, .sleep 1] | none => [])
        ++ [.inputText pw, .sleep 1]
        ++ (match cc with | some q => [.tap q.1 q.2] | none => [.pressKey 66])
        ++ [.sleep 2]
      else [])

example :
    automationSteps ⟨some (758, 1230), some (137, 790), some (758, 1230), "1234"⟩ =
      [.sleep 5, .tap 758 1230, .sleep 2, .tap 137 790, .sleep 1,
       .inputText "1234", .sleep 1, .tap 758 1230, .sleep 2] := by decide

example :
    automationSteps ⟨some (10, 20), none, none, "pw"⟩ =
      [.sleep 5, .tap 10 20, .sleep 2, .inputText "pw", .sleep 1,
       .pressKey 66, .sleep 2] := by decide

example :
    automationSteps ⟨some (10, 20), some (1, 2), some (3, 4), ""⟩ =
      [.sleep 5, .tap 10 20, .sleep 2] := by decide

/-! ## Python `int()` on strings

Model of `int(s)` for ASCII input: surrounding whitespace is allowed,
then an optional sign, then at least one digit, with single underscores
permitted between digits. A string outside this shape raises
`ValueError`, modelled as `none`. -/

/-- Valid continuation of a digit run: digits, with each underscore
    followed (and hence surrounded) by a digit. -/
def intTailOk : List Char → Bool
  | [] => true
  | c :: cs =>
    if c = '_' then
      match cs with
      | d :: ds => d.isDigit && intTailOk ds
      | [] => false
    else c.isDigit && intTailOk cs

/-- Numeric value of a digit-and-underscore run. -/
def digitsVal : Nat → List Char → Nat
  | n, [] => n
  | n, c :: cs => if c = '_' then digitsVal n cs else digitsVal (n * 10 + (c.toNat - 48)) cs

/-- Unsigned digit run: nonempty, first character a digit, valid tail. -/
def intCore : List Char → Option Nat
  | [] => none
  | c :: cs => if c.isDigit && intTailOk cs then some (digitsVal 0 (c :: cs)) else none

/-- Model of Python `int(s)`: `none` is `ValueError`. -/
def pyIntParse (s : String) : Option Int :=
  match (pyStrip s).data with
  | '+' :: rest => (intCore rest).map (fun n => (n : Int))
  | '-' :: rest => (intCore rest).map (fun n => -(n : Int))
  | rest => (intCore rest).map (fun n => (n : Int))

example : pyIntParse " 758 " = some 758 := by decide
example : pyIntParse "-12" = some (-12) := by decide
example : pyIntParse "abc" = none := by decide
example : pyIntParse "12.5" = none := by decide
example : pyIntParse "" = none := by decide
example : pyIntParse "1_0" = some 10 := by decide

/-! ## Session configuration builder (main_cli.py lines 309-345 and 426-462)

Both backup methods collect the automation parameters the same way:
an auto-confirm choice, a choice between the provided coordinates and
manual entry, six coordinate strings and a password. A `ValueError`
while parsing any coordinate sets `auto_confirm = False`, leaving any
already-assigned coordinate pairs in place; the password stays at its
initialisation `""`. -/

/-- The session fields the builder produces: the `auto_confirm` flag plus
    the automation fields. -/
structure SessionAutomationConfig where
  auto_confirm : Bool
  fields : AutomationFields
deriving Repr, DecidableEq

/-- The builder (main_cli.py lines 309-345, identically 426-462), as a
    function of the operator's raw answers: the auto-confirm answer, the
    provided-coordinates answer, the six coordinate strings and the
    password string. Coordinate parses happen in source order; the first
    failure aborts the `try` block with `auto_confirm = False`. -/
def buildAutomationConfig (auto_confirm_choice : String) (use_provided_coords : Bool)
    (tap_x tap_y pw_x pw_y conf_x conf_y password : String) : SessionAutomationConfig :=
  let auto_confirm := pyStrip (pyLower auto_confirm_choice) = "y"
  if auto_confirm then
    if use_provided_coords then
      ⟨true, ⟨some (758, 1230), some (137, 790), some (758, 1230), "1234"⟩⟩
    else
      match pyIntParse tap_x with
      | none => ⟨false, ⟨none, none, none, ""⟩⟩
      | some tx =>
        match pyIntParse tap_y with
        | none => ⟨false, ⟨none, none, none, ""⟩⟩
        | some ty =>
          match pyIntParse pw_x with
          | none => ⟨false, ⟨some (tx, ty), none, none, ""⟩⟩
          | some px =>
            match pyIntParse pw_y with
            | none => ⟨false, ⟨some (tx, ty), none, none, ""⟩⟩
            | some pyv =>
              match pyIntParse conf_x with
              | none => ⟨false, ⟨some (tx, ty), some (px, pyv), none, ""⟩⟩
              | some cx =>
                match pyIntParse conf_y with
                | none => ⟨false, ⟨some (tx, ty), some (px, pyv), none, ""⟩⟩
                | some cy =>
                  ⟨true, ⟨some (tx, ty), some (px, pyv), some (cx, cy), pyStrip password⟩⟩
  else ⟨false, ⟨none, none, none, ""⟩⟩

/-- The automation events a session issues: the script when `auto_confirm`
    holds, nothing otherwise (the `if auto_confirm:` guard at main_cli.py
    lines 372 and 490). -/
def sessionAutomationScript (cfg : SessionAutomationConfig) : List AutoStep :=
  if cfg.auto_confirm then automationSteps cfg.fields else []

/-! ## Backup session controller (main_cli.py lines 360-412 and 478-530)

The subprocess is spawned with `subprocess.Popen`; the controller then
calls `communicate(timeout=3600)` (whole device) or
`communicate(timeout=600)` (single application). On `TimeoutExpired` it
calls `kill()` and then `communicate()` again to drain the buffers, and
reports a timeout warning; a zero return code reports success and a
nonzero one reports failure with the captured stderr. The subprocess is
modelled by when (if ever) it would exit, its exit code and its buffered
stderr; the controller is modelled by the outcome it reports and by the
sequence of process-management actions it performs, whose effect on the
process is given by a small step function. -/

/-- The backup subprocess, abstracted: the time after spawn at which it
    exits on its own (`none` = never), its exit code, and the stderr it
    has buffered. -/
structure BackupProc where
  exitTime : Option Nat
  exitCode : Int
  stderrBuf : String
deriving Repr, DecidableEq

/-- Whether the process exits on its own within `t` seconds of the spawn. -/
def exitsWithin (p : BackupProc) (t : Nat) : Bool :=
  match p.exitTime with
  | some e => e ≤ t
  | none => false

/-- The outcome a backup session reports. -/
inductive BackupOutcome where
  | succeeded
  | failed (stderr : String)
  | timedOut (stderr : String)
deriving Repr, DecidableEq

/-- A process-management action of the controller. `communicate (some t)`
    waits at most `t` seconds and reaps the process when it exits in
    time; `communicate none` waits without bound (the draining call);
    `kill` terminates a running process. -/
inductive ProcAct where
  | spawn
  | communicate (timeout : Option Nat)
  | kill
deriving Repr, DecidableEq

/-- Lifecycle state of the subprocess. -/
inductive ProcState where
  | notStarted
  | running
  | exited
  | killed
deriving Repr, DecidableEq

/-- Effect of one controller action on the process state. -/
def procStep (p : BackupProc) (st : ProcState) : ProcAct → ProcState
  | .spawn => .running
  | .communicate (some t) =>
    match st with
    | .running => if exitsWithin p t then .exited else .running
    | s => s
  | .communicate none =>
    match st with
    | .running => .exited
    | s => s
  | .kill =>
    match st with
    | .running => .killed
    | s => s

/-- Process state after a sequence of controller actions. -/
def procFinal (p : BackupProc) (acts : List ProcAct) : ProcState :=
  acts.foldl (procStep p) .notStarted

/-- The timeout each scope passes to `communicate`: 3600 seconds at
    main_cli.py line 393, 600 seconds at line 511. -/
def backupTimeout : BackupScope → Nat
  | .allData => 3600
  | .singleApplication _ => 600

/-- The process-management actions the backup methods perform: spawn and
    a bounded `communicate`; when that raises `TimeoutExpired`, also
    `kill()` and the draining `communicate()` (main_cli.py lines 365-405
    and 483-523). -/
def controllerActs (scope : BackupScope) (p : BackupProc) : List ProcAct :=
  let t := backupTimeout scope
  if exitsWithin p t then [.spawn, .communicate (some t)]
  else [.spawn, .communicate (some t), .kill, .communicate none]

/-- The outcome the backup methods report (main_cli.py lines 395-408 and
    513-526): success on exit code zero, failure with the captured stderr
    on a nonzero code, timeout with the drained stderr when
    `communicate` times out. -/
def controllerOutcome (scope : BackupScope) (p : BackupProc) : BackupOutcome :=
  let t := backupTimeout scope
  if exitsWithin p t then
    if p.exitCode = 0 then .succeeded else .failed p.stderrBuf
  else .timedOut p.stderrBuf

example : controllerOutcome .allData ⟨none, 0, "e"⟩ = .timedOut "e" := by decide
example : procFinal ⟨none, 0, "e"⟩ (controllerActs .allData ⟨none, 0, "e"⟩) = .killed := by decide
example : controllerOutcome (.singleApplication "com.example.app") ⟨some 3, 1, "Backup not allowed"⟩
    = .failed "Backup not allowed" := by decide

example : pyStrip "  abc\t\n" = "abc" := by decide
example : pySplit '\t' "abc123\tdevice" = ["abc123", "device"] := by decide
example : pySplit '\n' "a\n\nb" = ["a", "", "b"] := by decide
example : pyJoin ", " ["a", "b"] = "a, b" := by decide
example : reMatchWifi "10.0.0.5:5555" = true := by decide
example : reMatchWifi "abc123" = false := by decide
example : reMatchWifi "10.0.0.5:5555\n" = true := by decide
example : reMatchWifi "10.0.0:5555" = false := by decide
example : reMatchWifi "1234.0.0.5:5555" = false := by decide

/-! ## Helper lemmas about the probe buckets -/

/-- Membership after appending a serial to the authorized bucket. -/
theorem mem_bucketMembers_auth (bk : Buckets) (x s : String) :
    s ∈ bucketMembers { bk with authorized := bk.authorized ++ [x] } ↔
      s = x ∨ s ∈ bucketMembers bk := by
  simp [bucketMembers, List.mem_append]
  tauto

/-- Membership after appending a serial to the unauthorized bucket. -/
theorem mem_bucketMembers_unauth (bk : Buckets) (x s : String) :
    s ∈ bucketMembers { bk with unauthorized := bk.unauthorized ++ [x] } ↔
      s = x ∨ s ∈ bucketMembers bk := by
  simp [bucketMembers, List.mem_append]
  tauto

/-- Membership after appending a serial to the offline bucket. -/
theorem mem_bucketMembers_off (bk : Buckets) (x s : String) :
    s ∈ bucketMembers { bk with offline := bk.offline ++ [x] } ↔
      s = x ∨ s ∈ bucketMembers bk := by
  simp [bucketMembers, List.mem_append]
  tauto

/-- A serial found in the buckets after one loop iteration was already there
    or lies on the probed track. -/
theorem mem_addLine {wifi : Bool} {bk : Buckets} {line s : String}
    (h : s ∈ bucketMembers (addLine wifi bk line)) :
    s ∈ bucketMembers bk ∨ reMatchWifi s = wifi := by
  by_cases hb : pyStrip line = ""
  · simp only [addLine, if_pos hb] at h
    exact Or.inl h
  · simp only [addLine, if_neg hb] at h
    cases hsp : pySplit '\t' line with
    | nil => rw [hsp] at h; exact Or.inl h
    | cons p0 rest =>
      cases rest with
      | nil => rw [hsp] at h; exact Or.inl h
      | cons p1 rest2 =>
        cases rest2 with
        | cons q qs => rw [hsp] at h; exact Or.inl h
        | nil =>
          rw [hsp] at h
          dsimp only at h
          by_cases hw : reMatchWifi (pyStrip p0) = wifi
          · rw [if_pos hw] at h
            by_cases h1 : pyStrip p1 = "device"
            · rw [if_pos h1] at h
              rcases (mem_bucketMembers_auth bk (pyStrip p0) s).mp h with he | hm
              · right; rw [he]; exact hw
              · left; exact hm
            · rw [if_neg h1] at h
              by_cases h2 : pyStrip p1 = "unauthorized"
              · rw [if_pos h2] at h
                rcases (mem_bucketMembers_unauth bk (pyStrip p0) s).mp h with he | hm
                · right; rw [he]; exact hw
                · left; exact hm
              · rw [if_neg h2] at h
                by_cases h3 : pyStrip p1 = "offline"
                · rw [if_pos h3] at h
                  rcases (mem_bucketMembers_off bk (pyStrip p0) s).mp h with he | hm
                  · right; rw [he]; exact hw
                  · left; exact hm
                · rw [if_neg h3] at h; exact Or.inl h
          · rw [if_neg hw] at h; exact Or.inl h

/-- Fold form of `mem_addLine` over a whole listing. -/
theorem mem_foldl_addLine (wifi : Bool) (lines : List String) (bk : Buckets) (s : String)
    (h : s ∈ bucketMembers (lines.foldl (addLine wifi) bk)) :
    s ∈ bucketMembers bk ∨ reMatchWifi s = wifi := by
  induction lines generalizing bk with
  | nil => exact Or.inl h
  | cons l ls ih =>
    rcases ih (addLine wifi bk l) h with h' | h'
    · exact mem_addLine h'
    · exact Or.inr h'

/-- Every serial a probe retains lies on that probe's track. -/
theorem mem_probeBuckets {wifi : Bool} {stdout s : String}
    (h : s ∈ bucketMembers (probeBuckets wifi stdout)) : reMatchWifi s = wifi := by
  rcases mem_foldl_addLine wifi _ emptyBuckets s h with h' | h'
  · simp [bucketMembers, emptyBuckets] at h'
  · exact h'

/-- What one well-formed listing line contributes to empty buckets. -/
theorem addLine_empty_eq (wifi : Bool) (line p0 p1 : String)
    (hb : pyStrip line ≠ "") (hs : pySplit '\t' line = [p0, p1]) :
    addLine wifi emptyBuckets line =
      (if reMatchWifi (pyStrip p0) = wifi then
        if pyStrip p1 = "device" then ⟨[pyStrip p0], [], []⟩
        else if pyStrip p1 = "unauthorized" then ⟨[], [pyStrip p0], []⟩
        else if pyStrip p1 = "offline" then ⟨[], [], [pyStrip p0]⟩
        else emptyBuckets
      else emptyBuckets) := by
  simp only [addLine, if_neg hb, hs]
  rfl

/-! ## Claim theorems -/

/-- C1: for every backup session, if the subprocess does not exit within the
configured timeout (3600 seconds whole-device, 600 seconds
single-application), the controller reports a timeout outcome distinct from
every failure outcome, kills the subprocess, drains its buffered output,
and the final process state is killed; moreover on every path, timeout or
not, control returns only once the subprocess is no longer running. -/
theorem backup_timeout_terminates (scope : BackupScope) (p : BackupProc)
    (h : exitsWithin p (backupTimeout scope) = false) :
    controllerOutcome scope p = BackupOutcome.timedOut p.stderrBuf
    ∧ (∀ s, controllerOutcome scope p ≠ BackupOutcome.failed s)
    ∧ ProcAct.kill ∈ controllerActs scope p
    ∧ ProcAct.communicate none ∈ controllerActs scope p
    ∧ procFinal p (controllerActs scope p) = ProcState.killed
    ∧ (∀ q : BackupProc, procFinal q (controllerActs scope q) ≠ ProcState.running)
    ∧ backupTimeout BackupScope.allData = 3600
    ∧ (∀ pkg, backupTimeout (BackupScope.singleApplication pkg) = 600) := by
  refine ⟨?_, ?_, ?_, ?_, ?_, ?_, rfl, fun pkg => rfl⟩
  · simp [controllerOutcome, h]
  · intro s; simp [controllerOutcome, h]
  · simp [controllerActs, h]
  · simp [controllerActs, h]
  · simp [controllerActs, h, procFinal, procStep]
  · intro q
    cases hq : exitsWithin q (backupTimeout scope) <;>
      simp [controllerActs, hq, procFinal, procStep]

/-- Closed instance of the timeout claim: a subprocess that never exits,
under whole-device scope, ends killed with a timeout outcome. -/
theorem backup_timeout_terminates_witness :
    exitsWithin ⟨none, 1, "err"⟩ (backupTimeout BackupScope.allData) = false
    ∧ controllerOutcome BackupScope.allData ⟨none, 1, "err"⟩ = BackupOutcome.timedOut "err"
    ∧ procFinal ⟨none, 1, "err"⟩ (controllerActs BackupScope.allData ⟨none, 1, "err"⟩)
        = ProcState.killed :=
  ⟨by decide,
   (backup_timeout_terminates BackupScope.allData ⟨none, 1, "err"⟩ (by decide)).1,
   (backup_timeout_terminates BackupScope.allData ⟨none, 1, "err"⟩ (by decide)).2.2.2.2.1⟩

/-- C2: the spawned backup command is a deterministic function of the scope:
whole-device scope carries the whole-device flag and not the package flag;
single-application scope carries the package flag immediately followed by
the literal package name and not the whole-device flag; both carry the
output path immediately after the destination flag. -/
theorem backup_command_scope (serial path pkg : String) :
    "-all" ∈ backupCommand BackupScope.allData serial path
    ∧ (∃ l r, backupCommand BackupScope.allData serial path = l ++ ["-f", path] ++ r)
    ∧ (serial ≠ "-apk" → path ≠ "-apk" →
        "-apk" ∉ backupCommand BackupScope.allData serial path)
    ∧ (∃ l r, backupCommand (BackupScope.singleApplication pkg) serial path
        = l ++ ["-apk", pkg] ++ r)
    ∧ (∃ l r, backupCommand (BackupScope.singleApplication pkg) serial path
        = l ++ ["-f", path] ++ r)
    ∧ (serial ≠ "-all" → path ≠ "-all" → pkg ≠ "-all" →
        "-all" ∉ backupCommand (BackupScope.singleApplication pkg) serial path) := by
  refine ⟨?_, ⟨["adb", "-s", serial, "backup", "-all"], [], rfl⟩, ?_,
          ⟨["adb", "-s", serial, "backup", "-f", path], [], rfl⟩,
          ⟨["adb", "-s", serial, "backup"], ["-apk", pkg], rfl⟩, ?_⟩
  · simp [backupCommand]
  · intro h1 h2 hmem
    have : "-apk" = serial ∨ "-apk" = path := by
      simpa [backupCommand] using hmem
    rcases this with h | h
    · exact h1 h.symm
    · exact h2 h.symm
  · intro h1 h2 h3 hmem
    have : "-all" = serial ∨ "-all" = path ∨ "-all" = pkg := by
      simpa [backupCommand] using hmem
    rcases this with h | h | h
    · exact h1 h.symm
    · exact h2 h.symm
    · exact h3 h.symm

/-- Closed instance of the command-shape claim at concrete arguments. -/
theorem backup_command_scope_witness :
    ("X1" ≠ "-apk" ∧ "/tmp/b.ab" ≠ "-apk" ∧ "X1" ≠ "-all" ∧ "/tmp/b.ab" ≠ "-all"
      ∧ "com.example.app" ≠ "-all")
    ∧ "-apk" ∉ backupCommand BackupScope.allData "X1" "/tmp/b.ab"
    ∧ "-all" ∉ backupCommand (BackupScope.singleApplication "com.example.app") "X1" "/tmp/b.ab" :=
  ⟨by refine ⟨?_, ?_, ?_, ?_, ?_⟩ <;> decide,
   (backup_command_scope "X1" "/tmp/b.ab" "com.example.app").2.2.1 (by decide) (by decide),
   (backup_command_scope "X1" "/tmp/b.ab" "com.example.app").2.2.2.2.2
     (by decide) (by decide) (by decide)⟩

/-- C3: the automation steps of a session whose plan has a primary confirm
coordinate are exactly the sequence the specification prescribes (sleep 5,
tap, sleep 2, then the password block when a password is configured); and
every configuration the builder produces with automation enabled does have
a primary confirm coordinate. -/
theorem automation_script_order :
    (∀ (p : AutomationFields) (tc : Int × Int), p.tap_coords = some tc →
      automationSteps p
        = automationStepsSpec tc p.password_coords p.confirm_pass_coords p.password_to_use)
    ∧ (∀ choice provided t1 t2 q1 q2 c1 c2 pw,
        (buildAutomationConfig choice provided t1 t2 q1 q2 c1 c2 pw).auto_confirm = true →
        ∃ tc, (buildAutomationConfig choice provided t1 t2 q1 q2 c1 c2 pw).fields.tap_coords
          = some tc) := by
  constructor
  · rintro ⟨tcf, pcf, ccf, pw⟩ tc h
    dsimp only at h
    subst h
    cases pcf <;> cases ccf <;> by_cases hpw : pw = "" <;>
      simp [automationSteps, automationStepsSpec, hpw]
  · intro choice provided t1 t2 q1 q2 c1 c2 pw h
    by_cases hc : pyStrip (pyLower choice) = "y"
    · by_cases hp : provided
      · refine ⟨(758, 1230), ?_⟩
        simp [buildAutomationConfig, hc, hp]
      · cases h1 : pyIntParse t1 <;> cases h2 : pyIntParse t2 <;> cases h3 : pyIntParse q1 <;>
          cases h4 : pyIntParse q2 <;> cases h5 : pyIntParse c1 <;> cases h6 : pyIntParse c2 <;>
          simp_all [buildAutomationConfig]
    · simp_all [buildAutomationConfig]

/-- Closed instance of the automation-order claim at the provided
coordinates and password. -/
theorem automation_script_order_witness :
    (⟨some (758, 1230), some (137, 790), some (758, 1230), "1234"⟩ : AutomationFields).tap_coords
        = some (758, 1230)
    ∧ automationSteps ⟨some (758, 1230), some (137, 790), some (758, 1230), "1234"⟩
        = automationStepsSpec (758, 1230) (some (137, 790)) (some (758, 1230)) "1234" :=
  ⟨rfl,
   automation_script_order.1 ⟨some (758, 1230), some (137, 790), some (758, 1230), "1234"⟩
     (758, 1230) rfl⟩

/-- C4: evaluation of the executor result shaping at the failing input.
With raw_output set, the returned stderr is stripped rather than preserved
byte-for-byte, contradicting the claim and the helper's own docstring; with
raw_output clear both components are stripped, as claimed. -/
theorem raw_output_strips_stderr :
    run_adb_return "List of devices attached" "  daemon not running; starting now\n" true
      = ("List of devices attached", "daemon not running; starting now")
    ∧ (run_adb_return "List of devices attached" "  daemon not running; starting now\n" true).2
      ≠ "  daemon not running; starting now\n"
    ∧ (∀ stdout stderr, run_adb_return stdout stderr false = (pyStrip stdout, pyStrip stderr)) :=
  ⟨by decide, by decide, fun _ _ => rfl⟩

/-- C5: serials retained by the Wi-Fi probe all match the ip:port shape and
serials retained by the USB probe all fail it, over any daemon output; and
for each well-formed listing line with a recognised status, the parsed
serial is retained by the Wi-Fi track exactly when it matches the shape and
by the USB track exactly when it does not, so the two tracks partition such
serials exhaustively and disjointly. -/
theorem track_partition :
    (∀ stdout s, s ∈ bucketMembers (probeBuckets true stdout) → reMatchWifi s = true)
    ∧ (∀ stdout s, s ∈ bucketMembers (probeBuckets false stdout) → reMatchWifi s = false)
    ∧ (∀ stdout stdout2 s, ¬ (s ∈ bucketMembers (probeBuckets true stdout)
        ∧ s ∈ bucketMembers (probeBuckets false stdout2)))
    ∧ (∀ line p0 p1, pyStrip line ≠ "" → pySplit '\t' line = [p0, p1] →
        pyStrip p1 ∈ (["device", "unauthorized", "offline"] : List String) →
        (pyStrip p0 ∈ bucketMembers (addLine true emptyBuckets line)
          ↔ reMatchWifi (pyStrip p0) = true)
        ∧ (pyStrip p0 ∈ bucketMembers (addLine false emptyBuckets line)
          ↔ reMatchWifi (pyStrip p0) = false)
        ∧ (pyStrip p0 ∈ bucketMembers (addLine true emptyBuckets line)
          ∨ pyStrip p0 ∈ bucketMembers (addLine false emptyBuckets line))
        ∧ ¬ (pyStrip p0 ∈ bucketMembers (addLine true emptyBuckets line)
          ∧ pyStrip p0 ∈ bucketMembers (addLine false emptyBuckets line))) := by
  refine ⟨fun _ _ h => mem_probeBuckets h, fun _ _ h => mem_probeBuckets h, ?_, ?_⟩
  · rintro stdout stdout2 s ⟨h1, h2⟩
    have e1 := mem_probeBuckets h1
    have e2 := mem_probeBuckets h2
    rw [e1] at e2
    exact Bool.noConfusion e2
  · intro line p0 p1 hb hs hstatus
    have key : ∀ w : Bool,
        pyStrip p0 ∈ bucketMembers (addLine w emptyBuckets line)
          ↔ reMatchWifi (pyStrip p0) = w := by
      intro w
      rw [addLine_empty_eq w line p0 p1 hb hs]
      by_cases hw : reMatchWifi (pyStrip p0) = w
      · rw [if_pos hw]
        simp only [List.mem_cons, List.not_mem_nil, or_false] at hstatus
        rcases hstatus with h | h | h <;>
          simp [h, bucketMembers, hw]
      · rw [if_neg hw]
        simp [bucketMembers, emptyBuckets, hw]
    refine ⟨key true, key false, ?_, ?_⟩
    · cases hw : reMatchWifi (pyStrip p0)
      · exact Or.inr ((key false).mpr hw)
      · exact Or.inl ((key true).mpr hw)
    · rintro ⟨h1, h2⟩
      have e1 := (key true).mp h1
      have e2 := (key false).mp h2
      rw [e1] at e2
      exact Bool.noConfusion e2

/-- Closed instance of the partition claim: a network-shaped serial is
retained by the Wi-Fi track and is absent from the USB track. -/
theorem track_partition_witness :
    pyStrip "10.0.0.5:5555\tdevice" ≠ ""
    ∧ pySplit '\t' "10.0.0.5:5555\tdevice" = ["10.0.0.5:5555", "device"]
    ∧ pyStrip "10.0.0.5:5555" ∈ bucketMembers (addLine true emptyBuckets "10.0.0.5:5555\tdevice")
    ∧ pyStrip "10.0.0.5:5555" ∉ bucketMembers (addLine false emptyBuckets "10.0.0.5:5555\tdevice") :=
  ⟨by decide, by decide,
   (track_partition.2.2.2 "10.0.0.5:5555\tdevice" "10.0.0.5:5555" "device"
      (by decide) (by decide) (by decide)).1.mpr (by decide),
   fun h =>
     absurd
       ((track_partition.2.2.2 "10.0.0.5:5555\tdevice" "10.0.0.5:5555" "device"
          (by decide) (by decide) (by decide)).2.1.mp h)
       (by decide)⟩

/-- C6: for a well-formed two-field line on the probed track, classification
is the total deterministic function of the status field mapping device,
unauthorized and offline to their buckets; any other status is excluded
from all three buckets; and the probe is a pure function of the daemon
output, so identical output yields identical buckets. -/
theorem status_classification :
    (∀ (wifi : Bool) (line p0 p1 : String), pyStrip line ≠ "" →
      pySplit '\t' line = [p0, p1] → reMatchWifi (pyStrip p0) = wifi →
      (pyStrip p1 = "device" →
        addLine wifi emptyBuckets line = ⟨[pyStrip p0], [], []⟩)
      ∧ (pyStrip p1 = "unauthorized" →
        addLine wifi emptyBuckets line = ⟨[], [pyStrip p0], []⟩)
      ∧ (pyStrip p1 = "offline" →
        addLine wifi emptyBuckets line = ⟨[], [], [pyStrip p0]⟩)
      ∧ (pyStrip p1 ≠ "device" → pyStrip p1 ≠ "unauthorized" → pyStrip p1 ≠ "offline" →
        addLine wifi emptyBuckets line = emptyBuckets))
    ∧ (∀ (wifi : Bool) (stdout : String), probeBuckets wifi stdout = probeBuckets wifi stdout) := by
  refine ⟨?_, fun _ _ => rfl⟩
  intro wifi line p0 p1 hb hs hw
  rw [addLine_empty_eq wifi line p0 p1 hb hs, if_pos hw]
  refine ⟨fun h => ?_, fun h => ?_, fun h => ?_, fun h1 h2 h3 => ?_⟩
  · rw [if_pos h]
  · rw [if_neg (by rw [h]; decide), if_pos h]
  · rw [if_neg (by rw [h]; decide), if_neg (by rw [h]; decide), if_pos h]
  · rw [if_neg h1, if_neg h2, if_neg h3]

/-- Closed instance of the classification claim at a USB line. -/
theorem status_classification_witness :
    pyStrip "abc123\tunauthorized" ≠ ""
    ∧ pySplit '\t' "abc123\tunauthorized" = ["abc123", "unauthorized"]
    ∧ reMatchWifi (pyStrip "abc123") = false
    ∧ addLine false emptyBuckets "abc123\tunauthorized" = ⟨[], ["abc123"], []⟩ :=
  ⟨by decide, by decide, by decide,
   (status_classification.1 false "abc123\tunauthorized" "abc123" "unauthorized"
      (by decide) (by decide) (by decide)).2.1 (by decide)⟩

/-- C7: the summary triple follows the strict priority authorized, then
unauthorized, then offline, then the no-devices message; a success carries
the authorized list and a message naming it, each failure names the
relevant devices, and every failure carries an empty authorized list. -/
theorem summary_priority (wifi : Bool) (bk : Buckets) :
    (bk.authorized ≠ [] →
      (summarize wifi bk).1 = true
      ∧ (summarize wifi bk).2.2 = bk.authorized
      ∧ ∃ pre, (summarize wifi bk).2.1 = pre ++ pyJoin ", " bk.authorized)
    ∧ (bk.authorized = [] → bk.unauthorized ≠ [] →
      (summarize wifi bk).1 = false
      ∧ (summarize wifi bk).2.2 = []
      ∧ ∃ pre suf, (summarize wifi bk).2.1 = pre ++ pyJoin ", " bk.unauthorized ++ suf)
    ∧ (bk.authorized = [] → bk.unauthorized = [] → bk.offline ≠ [] →
      (summarize wifi bk).1 = false
      ∧ (summarize wifi bk).2.2 = []
      ∧ ∃ pre suf, (summarize wifi bk).2.1 = pre ++ pyJoin ", " bk.offline ++ suf)
    ∧ (bk.authorized = [] → bk.unauthorized = [] → bk.offline = [] →
      summarize wifi bk =
        (false,
         if wifi then "No authorized Wi-Fi Android devices found."
         else "No authorized USB Android devices found.",
         []))
    ∧ ((summarize wifi bk).1 = false → (summarize wifi bk).2.2 = []) := by
  refine ⟨?_, ?_, ?_, ?_, ?_⟩
  · intro ha
    rw [summarize, if_pos ha]
    exact ⟨rfl, rfl, ⟨_, rfl⟩⟩
  · intro ha hu
    rw [summarize, if_neg (by simp [ha]), if_pos hu]
    refine ⟨rfl, rfl, ?_⟩
    cases wifi
    · exact ⟨"Device(s) detected but 'unauthorized': ",
        ". Please check your Android device and authorize the connection (allow USB debugging).",
        rfl⟩
    · exact ⟨"Wi-Fi Device(s) detected but 'unauthorized': ",
        ". Check device for authorization prompt.", rfl⟩
  · intro ha hu ho
    rw [summarize, if_neg (by simp [ha]), if_neg (by simp [hu]), if_pos ho]
    refine ⟨rfl, rfl, ?_⟩
    cases wifi
    · exact ⟨"Device(s) detected but 'offline': ",
        ". Please ensure your device is powered on and not in a special mode.", rfl⟩
    · exact ⟨"Wi-Fi Device(s) detected but 'offline': ", ". Check device and network.", rfl⟩
  · intro ha hu ho
    rw [summarize, if_neg (by simp [ha]), if_neg (by simp [hu]), if_neg (by simp [ho])]
  · intro h
    by_cases ha : bk.authorized = []
    · by_cases hu : bk.unauthorized = []
      · by_cases ho : bk.offline = []
        · rw [summarize, if_neg (by simp [ha]), if_neg (by simp [hu]), if_neg (by simp [ho])]
        · rw [summarize, if_neg (by simp [ha]), if_neg (by simp [hu]), if_pos ho]
      · rw [summarize, if_neg (by simp [ha]), if_pos hu]
    · rw [summarize, if_pos ha] at h
      exact Bool.noConfusion h

/-- Closed instance of the priority claim: with no authorized device and
one unauthorized device the probe fails and returns no serials. -/
theorem summary_priority_witness :
    (([] : List String) = [] ∧ (["dev1"] : List String) ≠ [])
    ∧ (summarize false ⟨[], ["dev1"], []⟩).1 = false
    ∧ (summarize false ⟨[], ["dev1"], []⟩).2.2 = [] :=
  ⟨⟨rfl, by decide⟩,
   ((summary_priority false ⟨[], ["dev1"], []⟩).2.1 rfl (by decide)).1,
   ((summary_priority false ⟨[], ["dev1"], []⟩).2.1 rfl (by decide)).2.1⟩

/-- Auxiliary for C8: the escape recursion equals the per-character
expansion of the claim. -/
theorem escapeSpaces_eq (cs : List Char) :
    escapeSpaces cs = cs.flatMap (fun c => if c = ' ' then ['%', 's'] else [c]) := by
  induction cs with
  | nil => rfl
  | cons c cs ih =>
    by_cases h : c = ' ' <;> simp [escapeSpaces, h, ih]

/-- C8: the transmitted text replaces every space with the literal token
and leaves every other character unchanged and in order, and the injected
argument of the input command is exactly that escaped text. -/
theorem input_text_escaping (serial text : String) :
    (input_text_arg text).data
      = text.data.flatMap (fun c => if c = ' ' then ['%', 's'] else [c])
    ∧ input_text_cmd serial text
      = ["adb", "-s", serial, "shell", "input", "text", input_text_arg text] :=
  ⟨escapeSpaces_eq text.data, rfl⟩

/-- C9: if any manually entered automation coordinate fails to parse as an
integer, the session configuration builder demotes the session to no
automation: the auto-confirm flag ends false and the session issues no
automation events, while the builder still returns a configuration. -/
theorem parse_failure_demotes (t1 t2 q1 q2 c1 c2 pw : String)
    (h : pyIntParse t1 = none ∨ pyIntParse t2 = none ∨ pyIntParse q1 = none
       ∨ pyIntParse q2 = none ∨ pyIntParse c1 = none ∨ pyIntParse c2 = none) :
    (buildAutomationConfig "y" false t1 t2 q1 q2 c1 c2 pw).auto_confirm = false
    ∧ sessionAutomationScript (buildAutomationConfig "y" false t1 t2 q1 q2 c1 c2 pw) = [] := by
  have hy : pyStrip (pyLower "y") = "y" := by decide
  cases h1 : pyIntParse t1 <;> cases h2 : pyIntParse t2 <;> cases h3 : pyIntParse q1 <;>
    cases h4 : pyIntParse q2 <;> cases h5 : pyIntParse c1 <;> cases h6 : pyIntParse c2 <;>
    simp_all [buildAutomationConfig, sessionAutomationScript, hy]

/-- Closed instance of the demotion claim: a non-numeric X coordinate. -/
theorem parse_failure_demotes_witness :
    pyIntParse "abc" = none
    ∧ (buildAutomationConfig "y" false "abc" "1230" "137" "790" "758" "1230" "pw").auto_confirm
        = false
    ∧ sessionAutomationScript
        (buildAutomationConfig "y" false "abc" "1230" "137" "790" "758" "1230" "pw") = [] :=
  ⟨by decide,
   (parse_failure_demotes "abc" "1230" "137" "790" "758" "1230" "pw" (Or.inl (by decide))).1,
   (parse_failure_demotes "abc" "1230" "137" "790" "758" "1230" "pw" (Or.inl (by decide))).2⟩

/-- C10: whenever the executor hands the probe a nonempty stderr, the probe
fails with an empty authorized list without parsing stdout, whatever that
stdout holds. -/
theorem stderr_fails_probe (wifi : Bool) (stdout stderr : String) (h : stderr ≠ "") :
    check_connection wifi stdout stderr
      = (false, "Error running 'adb devices': " ++ stderr, []) := by
  rw [check_connection, if_neg h]

/-- Closed instance of the stderr claim: stdout lists an authorized device,
yet a nonempty stderr makes the probe fail with no serials. -/
theorem stderr_fails_probe_witness :
    ("adb: daemon error" ≠ "")
    ∧ (probeBuckets false "List of devices attached\nabc123\tdevice").authorized = ["abc123"]
    ∧ check_connection false "List of devices attached\nabc123\tdevice" "adb: daemon error"
        = (false, "Error running 'adb devices': adb: daemon error", []) :=
  ⟨by decide, by decide,
   by
     rw [stderr_fails_probe false "List of devices attached\nabc123\tdevice" "adb: daemon error"
       (by decide)]
     decide⟩
